import Mathlib

/-!
Shallow embedding of the OAuth2 token-lifecycle manager and request
dispatcher of the anime-schedule client library.

The repository contains two historical revisions of the credential store:
`Auth` (src/auth.rs, token fields always present with empty-string
sentinels, a single shared `expires_at`) and `Token` (src/lib.rs,
Option-typed token fields).  Both are embedded faithfully.

Network effects are modelled by passing the outcome of each network
exchange as an explicit argument (`Except String TokenResponse` for the
token endpoint, `Except String Unit` for the revocation endpoint);
Rust `unwrap`/`expect` panics are modelled as `Option.none`.
-/

namespace AnimeSchedule

/-- Token-lifecycle errors, from src/errors.rs `TokenError`. -/
inductive TokenError where
  | Revoke (msg : String)
  | Callback (msg : String)
  | Expired
  | OAuth2 (msg : String)
  | Refresh
  | Access
  | Parse (msg : String)
  | StateMismatch
deriving DecidableEq, Repr

/-- API-level errors, from src/errors.rs `ApiError` (constructors
`AccessToken` and `Api` are the names used by the src/api revision). -/
inductive ApiError where
  | ParseError (msg : String)
  | AccessTokenError
  | ApiStatus (status : Nat) (error : String)
  | Reqwest (msg : String)
  | Etag
  | Xml
  | Route
  | UserId
  | AccessToken
  | Api (error : String)
deriving DecidableEq, Repr

/-- A token-endpoint response as observed through the oauth2 crate's
`TokenResponse` trait: the access token is always present, while
`refresh_token` and `expires_in` are optional. -/
structure TokenResponse where
  access_token : String
  refresh_token : Option String
  expires_in : Option Nat
deriving DecidableEq, Repr

/-- Serializable snapshot of the credential store, from src/auth.rs
`AuthTokens`: exactly the three fields access token, refresh token and
expiry. -/
structure AuthTokens where
  access_token : String
  refresh_token : String
  expires_at : Nat
deriving DecidableEq, Repr

/-- The `Auth` credential store of src/auth.rs: token fields are always
present (empty string on a fresh store), one shared `expires_at`. -/
structure Auth where
  client_id : String
  client_secret : String
  redirect_url : String
  app_token : String
  access_token : String
  refresh_token : String
  expires_at : Nat
  scopes : List String
deriving DecidableEq, Repr

/-- `Auth::new`: fresh store with empty tokens and expiry 0. -/
def Auth.new (client_id client_secret app_token redirect_url : String) : Auth :=
  { client_id := client_id, client_secret := client_secret,
    redirect_url := redirect_url, app_token := app_token,
    access_token := "", refresh_token := "", expires_at := 0, scopes := [] }

/-- `Auth::set_access_token_unchecked`. -/
def Auth.set_access_token_unchecked (a : Auth) (t : String) : Auth :=
  { a with access_token := t }

/-- `Auth::set_refresh_token_unchecked`. -/
def Auth.set_refresh_token_unchecked (a : Auth) (t : String) : Auth :=
  { a with refresh_token := t }

/-- `Auth::set_expires_at_unchecked`. -/
def Auth.set_expires_at_unchecked (a : Auth) (e : Nat) : Auth :=
  { a with expires_at := e }

/-- `Auth::to_tokens`: snapshot of access token, refresh token, expiry. -/
def Auth.to_tokens (a : Auth) : AuthTokens :=
  { access_token := a.access_token, refresh_token := a.refresh_token,
    expires_at := a.expires_at }

/-- `AuthTokens::into_auth`: build a fresh `Auth` from resupplied client
credentials, then restore the three snapshot fields via the unchecked
setters. -/
def AuthTokens.into_auth (t : AuthTokens)
    (client_id client_secret app_token redirect_url : String) : Auth :=
  (((Auth.new client_id client_secret app_token redirect_url).set_access_token_unchecked
      t.access_token).set_refresh_token_unchecked
      t.refresh_token).set_expires_at_unchecked t.expires_at

/-- `Auth::is_valid`: solely `now < expires_at` (src/auth.rs line 249). -/
def Auth.is_valid (a : Auth) (now : Nat) : Bool :=
  decide (now < a.expires_at)

/-- `Auth::is_refresh_valid`: solely `now < expires_at` (src/auth.rs line 260). -/
def Auth.is_refresh_valid (a : Auth) (now : Nat) : Bool :=
  decide (now < a.expires_at)

/-- `Auth::refresh`: exchange the refresh token; a transport failure maps
to `OAuth2` with the provider's error text; on success set access token,
refresh token (`unwrap`, hence `none` when the response has no refresh
token) and `expires_at := now + expires_in` (`unwrap` likewise). -/
def Auth.refresh (a : Auth) (now : Nat) (net : Except String TokenResponse) :
    Option (Auth × Except TokenError Unit) :=
  match net with
  | Except.error e => some (a, Except.error (TokenError.OAuth2 e))
  | Except.ok tok =>
      match tok.refresh_token, tok.expires_in with
      | some rt, some exp =>
          some ({ a with
                    access_token := tok.access_token,
                    refresh_token := rt,
                    expires_at := now + exp },
                Except.ok ())
      | _, _ => none

/-- `Auth::try_refresh` (src/auth.rs lines 310-319): refresh when the
refresh token is still valid, propagating any refresh error; otherwise
do nothing and return Ok.  This revision never calls `regenerate`. -/
def Auth.try_refresh (a : Auth) (now : Nat) (net : Except String TokenResponse) :
    Option (Auth × Except TokenError Unit) :=
  if a.is_refresh_valid now then a.refresh now net
  else some (a, Except.ok ())

/-- `Auth::regenerate`: run the callback; a callback failure maps to
`Callback`; a CSRF state mismatch returns `StateMismatch` before any
store mutation; an exchange failure maps to `Access`; on success set
expiry, access token and refresh token from the response (`unwrap` on the
optional fields modelled as `none`). -/
def Auth.regenerate (a : Auth) (now : Nat) (genState : String)
    (cb : Except String (String × String)) (exch : Except String TokenResponse) :
    Option (Auth × Except TokenError Unit) :=
  match cb with
  | Except.error e => some (a, Except.error (TokenError.Callback e))
  | Except.ok (_code, client_state) =>
      if genState ≠ client_state then
        some (a, Except.error TokenError.StateMismatch)
      else
        match exch with
        | Except.error _ => some (a, Except.error TokenError.Access)
        | Except.ok tok =>
            match tok.expires_in, tok.refresh_token with
            | some exp, some rt =>
                some ({ a with
                          expires_at := now + exp,
                          access_token := tok.access_token,
                          refresh_token := rt },
                      Except.ok ())
            | _, _ => none

/-- `Auth::revoke_token`: always contacts the revocation endpoint (the
access token is always present in this revision); a failure maps to
`Revoke`.  The boolean records that the endpoint was contacted. -/
def Auth.revoke_token (_a : Auth) (net : Except String Unit) :
    Bool × Except TokenError Unit :=
  match net with
  | Except.error e => (true, Except.error (TokenError.Revoke e))
  | Except.ok _ => (true, Except.ok ())

/-- `Auth::revoke_refresh_token`: same shape as `Auth.revoke_token`. -/
def Auth.revoke_refresh_token (_a : Auth) (net : Except String Unit) :
    Bool × Except TokenError Unit :=
  match net with
  | Except.error e => (true, Except.error (TokenError.Revoke e))
  | Except.ok _ => (true, Except.ok ())

/-- The `Token` credential store of src/lib.rs: Option-typed fields. -/
structure Token where
  client_id : String
  client_secret : String
  redirect_url : String
  app_token : String
  access_token : Option String
  refresh_token : Option String
  expires_at : Option Nat
  scopes : List String
deriving DecidableEq, Repr

/-- `Token::new`: fresh store with no tokens and no expiry. -/
def Token.new (client_id client_secret app_token redirect_url : String) : Token :=
  { client_id := client_id, client_secret := client_secret,
    redirect_url := redirect_url, app_token := app_token,
    access_token := none, refresh_token := none, expires_at := none,
    scopes := [] }

/-- `Token::is_valid` (src/lib.rs lines 299-309): access token present AND
refresh token present AND `expires_at` set with `now < expires_at`. -/
def Token.is_valid (s : Token) (now : Nat) : Bool :=
  s.access_token.isSome && s.refresh_token.isSome &&
    (match s.expires_at with
     | some t => decide (now < t)
     | none => false)

/-- `Token::refresh` (src/lib.rs lines 391-416): fail with `Refresh` when
no refresh token is stored; map a transport failure to `OAuth2` with the
provider's error text; on success replace all three fields from the one
response. -/
def Token.refresh (s : Token) (now : Nat) (net : Except String TokenResponse) :
    Token × Except TokenError Unit :=
  match s.refresh_token with
  | none => (s, Except.error TokenError.Refresh)
  | some _ =>
      match net with
      | Except.error e => (s, Except.error (TokenError.OAuth2 e))
      | Except.ok tok =>
          ({ s with
               access_token := some tok.access_token,
               refresh_token := tok.refresh_token,
               expires_at := tok.expires_in.map fun d => now + d },
           Except.ok ())

/-- `Token::regenerate` (src/lib.rs lines 419-465): callback failure maps
to `Callback`; CSRF state mismatch returns `StateMismatch` before any
store mutation; exchange failure maps to `Access`; on success replace
expiry, access token and refresh token from the one response. -/
def Token.regenerate (s : Token) (now : Nat) (genState : String)
    (cb : Except String (String × String)) (exch : Except String TokenResponse) :
    Token × Except TokenError Unit :=
  match cb with
  | Except.error e => (s, Except.error (TokenError.Callback e))
  | Except.ok (_code, res_state) =>
      if genState ≠ res_state then
        (s, Except.error TokenError.StateMismatch)
      else
        match exch with
        | Except.error _ => (s, Except.error TokenError.Access)
        | Except.ok tok =>
            ({ s with
                 expires_at := tok.expires_in.map fun d => now + d,
                 access_token := some tok.access_token,
                 refresh_token := tok.refresh_token },
             Except.ok ())

/-- `Token::revoke_token` (src/lib.rs lines 311-325): no-op success when
no access token is stored; otherwise contact the revocation endpoint and
map a failure to `Revoke`.  The boolean records endpoint contact. -/
def Token.revoke_token (s : Token) (net : Except String Unit) :
    Bool × Except TokenError Unit :=
  match s.access_token with
  | none => (false, Except.ok ())
  | some _ =>
      match net with
      | Except.error e => (true, Except.error (TokenError.Revoke e))
      | Except.ok _ => (true, Except.ok ())

/-- `Token::revoke_refresh_token` (src/lib.rs lines 327-341): no-op
success when no refresh token is stored; otherwise contact the endpoint
and map a failure to `Revoke`. -/
def Token.revoke_refresh_token (s : Token) (net : Except String Unit) :
    Bool × Except TokenError Unit :=
  match s.refresh_token with
  | none => (false, Except.ok ())
  | some _ =>
      match net with
      | Except.error e => (true, Except.error (TokenError.Revoke e))
      | Except.ok _ => (true, Except.ok ())

/-- Result of `Token::try_refresh`, instrumented with which repair
operations ran (`refreshed`: the refresh-token exchange was attempted;
`regenerated`: the full interactive grant was attempted). -/
structure TryRefreshOut where
  state : Token
  result : Except TokenError Unit
  refreshed : Bool
  regenerated : Bool
deriving Repr

/-- `Token::try_refresh` (src/lib.rs lines 345-373), mirroring the source
branch for branch.  With an expiry on record: refresh when expired and a
refresh token exists, falling back to `regenerate` when that refresh
fails; regenerate directly when either token is missing; otherwise do
nothing.  Without an expiry: refresh (with the same fallback) when a
refresh token exists, else regenerate. -/
def Token.try_refresh (s : Token) (now : Nat) (net : Except String TokenResponse)
    (genState : String) (cb : Except String (String × String))
    (exch : Except String TokenResponse) : TryRefreshOut :=
  match s.expires_at with
  | some t =>
      if decide (t ≤ now) && s.refresh_token.isSome then
        match s.refresh now net with
        | (s1, Except.error _) =>
            match s1.regenerate now genState cb exch with
            | (s2, r) => ⟨s2, r, true, true⟩
        | (s1, Except.ok _) => ⟨s1, Except.ok (), true, false⟩
      else if s.access_token.isNone || s.refresh_token.isNone then
        match s.regenerate now genState cb exch with
        | (s2, r) => ⟨s2, r, false, true⟩
      else ⟨s, Except.ok (), false, false⟩
  | none =>
      if s.refresh_token.isSome then
        match s.refresh now net with
        | (s1, Except.error _) =>
            match s1.regenerate now genState cb exch with
            | (s2, r) => ⟨s2, r, true, true⟩
        | (s1, Except.ok _) => ⟨s1, Except.ok (), true, false⟩
      else
        match s.regenerate now genState cb exch with
        | (s2, r) => ⟨s2, r, false, true⟩

/-- The condition under which `Token::try_refresh` attempts the
refresh-token exchange: a refresh token is stored, and the recorded
expiry (if any) has passed. -/
def refreshAttempted (s : Token) (now : Nat) : Bool :=
  s.refresh_token.isSome &&
    (match s.expires_at with
     | some t => decide (t ≤ now)
     | none => true)

/-- The rate-limit envelope, from src/rate_limit.rs `RateLimit`. -/
structure RateLimit where
  limit : Nat
  remaining : Nat
  reset : Nat
deriving DecidableEq, Repr

/-- Case-exact lookup of a header value in a header map, first match wins
(reqwest `HeaderMap::get`). -/
def headerGet (headers : List (String × String)) (name : String) : Option String :=
  (headers.find? fun p => p.1 == name).map Prod.snd

/-- Accumulate a decimal value over a character list, failing on the
first non-digit. -/
def digitsToNat (cs : List Char) (acc : Nat) : Option Nat :=
  match cs with
  | [] => some acc
  | c :: rest =>
      if c.isDigit then digitsToNat rest (acc * 10 + (c.toNat - 48)) else none

/-- Decimal parse of a whole string: nonempty and all digits. -/
def parseNat (s : String) : Option Nat :=
  match s.data with
  | [] => none
  | cs => digitsToNat cs 0

/-- Rust `str::parse::<u16>`: decimal digits only, value below 2^16. -/
def parse_u16 (s : String) : Option Nat :=
  match parseNat s with
  | some n => if n < 65536 then some n else none
  | none => none

/-- Rust `str::parse::<u64>`: decimal digits only, value below 2^64. -/
def parse_u64 (s : String) : Option Nat :=
  match parseNat s with
  | some n => if n < 18446744073709551616 then some n else none
  | none => none

/-- `RateLimit::new` (src/rate_limit.rs lines 16-46): read
`x-ratelimit-remaining`, `x-ratelimit-reset` and `x-ratelimit-limit` in
the source's order; each `expect`/`unwrap` on a missing header or a
failed numeric parse is a hard failure, modelled as `none`. -/
def RateLimit.new (headers : List (String × String)) : Option RateLimit :=
  match headerGet headers "x-ratelimit-remaining" with
  | none => none
  | some rv =>
      match parse_u16 rv with
      | none => none
      | some remaining =>
          match headerGet headers "x-ratelimit-reset" with
          | none => none
          | some tv =>
              match parse_u64 tv with
              | none => none
              | some reset =>
                  match headerGet headers "x-ratelimit-limit" with
                  | none => none
                  | some lv =>
                      match parse_u16 lv with
                      | none => none
                      | some limit =>
                          some { limit := limit, remaining := remaining,
                                 reset := reset }

/-- HTTP method of a dispatched request, from src/api_request.rs
`RequestMethod`. -/
inductive RequestMethod where
  | Get
  | Put
  | Delete
deriving DecidableEq, Repr

/-- The part of the credential store the dispatcher reads: an optional
user access token and the always-present app token. -/
structure ApiAuth where
  access_token : Option String
  app_token : String
deriving DecidableEq, Repr

/-- An HTTP request as actually handed to the transport: method, URL and
the bearer credential attached to it. -/
structure SentRequest where
  method : RequestMethod
  url : String
  bearer : String
deriving DecidableEq, Repr

/-- An HTTP response as seen by the dispatcher: headers, status, body. -/
structure HttpResponse where
  headers : List (String × String)
  status : Nat
  body : String
deriving DecidableEq, Repr

/-- `ApiRequest::api_request` (src/api_request.rs lines 99-156).  The
first component of the result records the request given to the transport
(`none`: no HTTP request was sent).  `is_json` stands for the
`IsJson::is_json` serde check on the body and `decode` for the
`serde_json::from_str::<D>` decode; the final `limit.unwrap()` panic is
the outer `none`. -/
def ApiRequest.api_request (auth : ApiAuth) (url : String)
    (method : RequestMethod) (is_auth : Bool) (resp : HttpResponse)
    (is_json : String → Bool) (decode : String → Bool) :
    Option (Option SentRequest × Except ApiError RateLimit) :=
  let bearer : Except ApiError String :=
    if is_auth then
      match auth.access_token with
      | none => Except.error ApiError.AccessTokenError
      | some t => Except.ok t
    else Except.ok auth.app_token
  match bearer with
  | Except.error e => some (none, Except.error e)
  | Except.ok b =>
      let sent : SentRequest := { method := method, url := url, bearer := b }
      let limit := RateLimit.new resp.headers
      if !is_json resp.body then
        some (some sent, Except.error (ApiError.ApiStatus resp.status resp.body))
      else if !decode resp.body then
        some (some sent, Except.error (ApiError.ParseError resp.body))
      else
        match limit with
        | none => none
        | some l => some (some sent, Except.ok l)

/-- Base URL of the provider's API, from src/lib.rs `API_URL`. -/
def API_URL : String := "https://animeschedule.net/api/v3"

/-- Route template `API_ANIMELISTS_USERID_ROUTE` of src/api/animelists.rs. -/
def API_ANIMELISTS_USERID_ROUTE : String :=
  API_URL ++ "/animelists/{userId}/{route}"

/-- Route template `API_ANIMELISTS_ROUTE` of src/api/animelists.rs. -/
def API_ANIMELISTS_ROUTE : String :=
  API_URL ++ "/animelists/oauth/{route}"

/-- Builder state of `AnimeListsDelete` (src/api/animelists.rs). -/
structure AnimeListsDelete where
  route : Option String
  user_id : Option String
deriving DecidableEq, Repr

/-- `AnimeListsDelete::send` (src/api/animelists.rs lines 478-518):
missing route fails with `Route`; a missing access token fails with
`AccessToken` before the request is sent; otherwise a DELETE is sent
with the access token as bearer, and a non-empty body or a 4xx/5xx
status is surfaced as `Api` with the raw body text. -/
def AnimeListsDelete.send (b : AnimeListsDelete) (auth : ApiAuth)
    (resp : HttpResponse) :
    Option (Option SentRequest × Except ApiError RateLimit) :=
  match b.route with
  | none => some (none, Except.error ApiError.Route)
  | some route =>
      let url :=
        match b.user_id with
        | some user_id =>
            (API_ANIMELISTS_USERID_ROUTE.replace "{userId}" user_id).replace
              "{route}" route
        | none => API_ANIMELISTS_ROUTE.replace "{route}" route
      match auth.access_token with
      | none => some (none, Except.error ApiError.AccessToken)
      | some tok =>
          let sent : SentRequest :=
            { method := RequestMethod.Delete, url := url, bearer := tok }
          let limit := RateLimit.new resp.headers
          let is_err := decide (400 ≤ resp.status) && decide (resp.status < 600)
          if !(resp.body == "") || is_err then
            some (some sent, Except.error (ApiError.Api resp.body))
          else
            match limit with
            | none => none
            | some l => some (some sent, Except.ok l)

/-! ### Theorems about the embedded operations -/

/-- Claim C10: in the `Auth` variant, `is_valid` and `is_refresh_valid`
are extensionally equal functions of the shared `expires_at`: at every
credential state and every current time they return the same boolean. -/
theorem auth_validity_predicates_agree (a : Auth) (now : Nat) :
    Auth.is_valid a now = Auth.is_refresh_valid a now := rfl

/-- Claim C2: in both store variants, when the callback returns a CSRF
state different from the one generated for the attempt, `regenerate`
fails with `StateMismatch` and the credential store is exactly the store
from before the call. -/
theorem regenerate_state_mismatch (a : Auth) (s : Token) (now : Nat)
    (genState code client_state : String) (exch : Except String TokenResponse)
    (h : client_state ≠ genState) :
    Auth.regenerate a now genState (Except.ok (code, client_state)) exch =
      some (a, Except.error TokenError.StateMismatch) ∧
    Token.regenerate s now genState (Except.ok (code, client_state)) exch =
      (s, Except.error TokenError.StateMismatch) := by
  have h2 : genState ≠ client_state := Ne.symm h
  constructor
  · simp [Auth.regenerate, h2]
  · simp [Token.regenerate, h2]

/-- Witness for C2: a concrete mismatching callback state leaves a
concrete fresh store untouched and fails with `StateMismatch`. -/
theorem regenerate_state_mismatch_witness :
    Auth.regenerate (Auth.new "id" "sec" "app" "uri") 0 "good"
        (Except.ok ("code", "evil")) (Except.error "down") =
      some (Auth.new "id" "sec" "app" "uri",
            Except.error TokenError.StateMismatch) ∧
    Token.regenerate (Token.new "id" "sec" "app" "uri") 0 "good"
        (Except.ok ("code", "evil")) (Except.error "down") =
      (Token.new "id" "sec" "app" "uri",
       Except.error TokenError.StateMismatch) :=
  regenerate_state_mismatch (Auth.new "id" "sec" "app" "uri")
    (Token.new "id" "sec" "app" "uri") 0 "good" "code" "evil"
    (Except.error "down") (by decide)

/-- Counterexample to C3 as stated: a `Token` store holding an access
token with an unexpired `expires_at` but no refresh token is declared
invalid by `Token::is_valid`, although the claim's biconditional
(access token present AND now < expires_at) holds. -/
theorem is_valid_requires_refresh_token_cx :
    Token.is_valid
        { client_id := "id", client_secret := "sec", redirect_url := "uri",
          app_token := "app", access_token := some "abc",
          refresh_token := none, expires_at := some 10, scopes := [] } 0 =
      false ∧
    Option.isSome
        ({ client_id := "id", client_secret := "sec", redirect_url := "uri",
           app_token := "app", access_token := some "abc",
           refresh_token := none, expires_at := some 10,
           scopes := [] } : Token).access_token = true ∧
    (0 : Nat) < 10 := by
  refine ⟨rfl, rfl, by decide⟩

/-- Claim C3 (amended): `Auth::is_valid` and `Auth::is_refresh_valid`
test only the expiry (`now < expires_at`, regardless of token content),
while `Token::is_valid` requires an access token AND a refresh token AND
a recorded expiry strictly greater than now; the `Token` variant has no
`is_refresh_valid`.  All predicates are false on freshly constructed
stores. -/
theorem is_valid_characterization (a : Auth) (s : Token) (now : Nat)
    (i sec app r : String) :
    (Auth.is_valid a now = true ↔ now < a.expires_at) ∧
    (Auth.is_refresh_valid a now = true ↔ now < a.expires_at) ∧
    (Token.is_valid s now = true ↔
      s.access_token.isSome = true ∧ s.refresh_token.isSome = true ∧
        ∃ t, s.expires_at = some t ∧ now < t) ∧
    Auth.is_valid (Auth.new i sec app r) now = false ∧
    Token.is_valid (Token.new i sec app r) now = false := by
  refine ⟨by simp [Auth.is_valid], by simp [Auth.is_refresh_valid], ?_, ?_, ?_⟩
  · cases h : s.expires_at with
    | none => simp [Token.is_valid, h]
    | some t => simp [Token.is_valid, h, and_assoc]
  · simp [Auth.is_valid, Auth.new]
  · simp [Token.is_valid, Token.new]

/-- Claim C4: `Token::refresh` fails with `Refresh` when no refresh token
is stored (and its outcome is then independent of the token endpoint,
which is never contacted), and in both variants a failed refresh-token
exchange surfaces as `OAuth2` carrying the provider's error text. -/
theorem refresh_error_paths (s : Token) (a : Auth) (now : Nat) (e : String) :
    (s.refresh_token = none →
      ∀ net, Token.refresh s now net = (s, Except.error TokenError.Refresh)) ∧
    (s.refresh_token.isSome = true →
      Token.refresh s now (Except.error e) =
        (s, Except.error (TokenError.OAuth2 e))) ∧
    Auth.refresh a now (Except.error e) =
      some (a, Except.error (TokenError.OAuth2 e)) := by
  refine ⟨?_, ?_, rfl⟩
  · intro h net
    simp [Token.refresh, h]
  · intro h
    cases h2 : s.refresh_token with
    | none => rw [h2] at h; simp at h
    | some rt => simp [Token.refresh, h2]

/-- Witness for C4: the fresh store (no refresh token) fails with
`Refresh` no matter what the endpoint would answer, and a store holding
a refresh token surfaces a transport failure as `OAuth2`. -/
theorem refresh_error_paths_witness :
    Token.refresh (Token.new "id" "sec" "app" "uri") 0 (Except.error "down") =
      (Token.new "id" "sec" "app" "uri", Except.error TokenError.Refresh) ∧
    Token.refresh
        { client_id := "id", client_secret := "sec", redirect_url := "uri",
          app_token := "app", access_token := some "abc",
          refresh_token := some "def", expires_at := some 10, scopes := [] }
        0 (Except.error "down") =
      ({ client_id := "id", client_secret := "sec", redirect_url := "uri",
         app_token := "app", access_token := some "abc",
         refresh_token := some "def", expires_at := some 10, scopes := [] },
       Except.error (TokenError.OAuth2 "down")) :=
  ⟨(refresh_error_paths (Token.new "id" "sec" "app" "uri")
      (Auth.new "id" "sec" "app" "uri") 0 "down").1 rfl (Except.error "down"),
   (refresh_error_paths
      { client_id := "id", client_secret := "sec", redirect_url := "uri",
        app_token := "app", access_token := some "abc",
        refresh_token := some "def", expires_at := some 10, scopes := [] }
      (Auth.new "id" "sec" "app" "uri") 0 "down").2.1 rfl⟩

/-- Claim C5: whenever `refresh` returns Ok, every one of the three
fields access token, refresh token and expiry of the resulting store is
the value derived from the one successful token-endpoint response (new
access token, the response's refresh token, now + expires_in); no field
retains its pre-call value independently of the others. -/
theorem refresh_atomic_update (s s' : Token) (a a' : Auth) (now : Nat)
    (tok : TokenResponse)
    (hs : Token.refresh s now (Except.ok tok) = (s', Except.ok ())) :
    (s'.access_token = some tok.access_token ∧
     s'.refresh_token = tok.refresh_token ∧
     s'.expires_at = tok.expires_in.map fun d => now + d) ∧
    (Auth.refresh a now (Except.ok tok) = some (a', Except.ok ()) →
      a'.access_token = tok.access_token ∧
      tok.refresh_token = some a'.refresh_token ∧
      ∃ d, tok.expires_in = some d ∧ a'.expires_at = now + d) := by
  constructor
  · cases h2 : s.refresh_token with
    | none => simp [Token.refresh, h2] at hs
    | some rt =>
        simp only [Token.refresh, h2] at hs
        obtain ⟨h3, -⟩ := Prod.mk.injEq .. ▸ hs
        subst h3
        exact ⟨rfl, rfl, rfl⟩
  · intro ha
    cases hrt : tok.refresh_token with
    | none => simp [Auth.refresh, hrt] at ha
    | some rt =>
        cases hexp : tok.expires_in with
        | none => simp [Auth.refresh, hrt, hexp] at ha
        | some d =>
            simp only [Auth.refresh, hrt, hexp, Option.some.injEq,
              Prod.mk.injEq] at ha
            obtain ⟨h3, -⟩ := ha
            subst h3
            exact ⟨rfl, rfl, d, rfl, rfl⟩

/-- Witness for C5: a concrete successful refresh replaces all three
fields with values derived from the concrete response. -/
theorem refresh_atomic_update_witness :
    Token.refresh
          { client_id := "id", client_secret := "sec", redirect_url := "uri",
            app_token := "app", access_token := some "abc",
            refresh_token := some "def", expires_at := some 10, scopes := [] }
          50 (Except.ok { access_token := "abc2", refresh_token := some "def2",
                          expires_in := some 3600 }) =
        ({ client_id := "id", client_secret := "sec", redirect_url := "uri",
           app_token := "app", access_token := some "abc2",
           refresh_token := some "def2", expires_at := some 3650,
           scopes := [] }, Except.ok ()) ∧
    ({ client_id := "id", client_secret := "sec", redirect_url := "uri",
       app_token := "app", access_token := some "abc2",
       refresh_token := some "def2", expires_at := some 3650,
       scopes := [] } : Token).access_token = some "abc2" := by
  refine ⟨rfl, ?_⟩
  exact (refresh_atomic_update
    { client_id := "id", client_secret := "sec", redirect_url := "uri",
      app_token := "app", access_token := some "abc",
      refresh_token := some "def", expires_at := some 10, scopes := [] }
    { client_id := "id", client_secret := "sec", redirect_url := "uri",
      app_token := "app", access_token := some "abc2",
      refresh_token := some "def2", expires_at := some 3650, scopes := [] }
    (Auth.new "id" "sec" "app" "uri") (Auth.new "id" "sec" "app" "uri") 50
    { access_token := "abc2", refresh_token := some "def2",
      expires_in := some 3600 } rfl).1.1

/-- Claim C6: a user-scoped dispatch with no stored access token fails
with the access-token-missing error (`AccessTokenError` in the generic
dispatcher, `AccessToken` in `AnimeListsDelete::send`) and no HTTP
request reaches the transport. -/
theorem dispatcher_missing_access_token (auth : ApiAuth) (url : String)
    (m : RequestMethod) (resp : HttpResponse) (is_json decode : String → Bool)
    (b : AnimeListsDelete) (route : String)
    (h : auth.access_token = none) :
    ApiRequest.api_request auth url m true resp is_json decode =
      some (none, Except.error ApiError.AccessTokenError) ∧
    (b.route = some route →
      AnimeListsDelete.send b auth resp =
        some (none, Except.error ApiError.AccessToken)) := by
  constructor
  · simp [ApiRequest.api_request, h]
  · intro hr
    simp [AnimeListsDelete.send, hr, h]

/-- Witness for C6: an empty credential store fails both dispatch paths
with the access-token-missing error and nothing is sent. -/
theorem dispatcher_missing_access_token_witness :
    ApiRequest.api_request { access_token := none, app_token := "app" } "url"
        RequestMethod.Get true { headers := [], status := 200, body := "{}" }
        (fun _ => true) (fun _ => true) =
      some (none, Except.error ApiError.AccessTokenError) ∧
    AnimeListsDelete.send { route := some "slug", user_id := none }
        { access_token := none, app_token := "app" }
        { headers := [], status := 200, body := "{}" } =
      some (none, Except.error ApiError.AccessToken) := by
  have h := dispatcher_missing_access_token
    { access_token := none, app_token := "app" } "url" RequestMethod.Get
    { headers := [], status := 200, body := "{}" } (fun _ => true)
    (fun _ => true) { route := some "slug", user_id := none } "slug" rfl
  exact ⟨h.1, h.2 rfl⟩

/-- Claim C7: `RateLimit::new` requires all three rate-limit headers:
absence of any one (or a failed numeric parse) is a hard failure with no
defaulted value, and when all three are present and numeric the result
carries exactly their parsed values. -/
theorem rate_limit_headers (headers : List (String × String)) :
    ((headerGet headers "x-ratelimit-limit" = none ∨
      headerGet headers "x-ratelimit-remaining" = none ∨
      headerGet headers "x-ratelimit-reset" = none) →
      RateLimit.new headers = none) ∧
    (∀ lv rv tv l r t,
      headerGet headers "x-ratelimit-limit" = some lv →
      headerGet headers "x-ratelimit-remaining" = some rv →
      headerGet headers "x-ratelimit-reset" = some tv →
      parse_u16 lv = some l → parse_u16 rv = some r → parse_u64 tv = some t →
      RateLimit.new headers = some { limit := l, remaining := r, reset := t }) := by
  constructor
  · intro h
    cases h1 : headerGet headers "x-ratelimit-remaining" with
    | none => simp [RateLimit.new, h1]
    | some rv =>
        cases h2 : parse_u16 rv with
        | none => simp [RateLimit.new, h1, h2]
        | some rn =>
            cases h3 : headerGet headers "x-ratelimit-reset" with
            | none => simp [RateLimit.new, h1, h2, h3]
            | some tv =>
                cases h4 : parse_u64 tv with
                | none => simp [RateLimit.new, h1, h2, h3, h4]
                | some tn =>
                    cases h5 : headerGet headers "x-ratelimit-limit" with
                    | none => simp [RateLimit.new, h1, h2, h3, h4, h5]
                    | some lv =>
                        rcases h with h | h | h <;> simp_all
  · intro lv rv tv l r t h1 h2 h3 h4 h5 h6
    simp [RateLimit.new, h1, h2, h3, h4, h5, h6]

/-- Witness for C7: concrete headers with all three fields present parse
to exactly their numeric values. -/
theorem rate_limit_headers_witness :
    RateLimit.new
        [("x-ratelimit-limit", "120"), ("x-ratelimit-remaining", "119"),
         ("x-ratelimit-reset", "1700000000")] =
      some { limit := 120, remaining := 119, reset := 1700000000 } :=
  (rate_limit_headers
      [("x-ratelimit-limit", "120"), ("x-ratelimit-remaining", "119"),
       ("x-ratelimit-reset", "1700000000")]).2
    "120" "119" "1700000000" 120 119 1700000000 rfl rfl rfl rfl rfl rfl

/-- Claim C8: the serializable snapshot `AuthTokens` is determined by
exactly the three fields access token, refresh token and expiry, and the
round trip `to_tokens` then `into_auth` (with resupplied client id,
secret, app token and redirect URL) restores those three fields of the
original store. -/
theorem to_tokens_exact_and_roundtrip (a : Auth) (i sec app r : String) :
    (∀ t1 t2 : AuthTokens,
      t1.access_token = t2.access_token →
      t1.refresh_token = t2.refresh_token →
      t1.expires_at = t2.expires_at → t1 = t2) ∧
    ((a.to_tokens).into_auth i sec app r).access_token = a.access_token ∧
    ((a.to_tokens).into_auth i sec app r).refresh_token = a.refresh_token ∧
    ((a.to_tokens).into_auth i sec app r).expires_at = a.expires_at := by
  refine ⟨?_, rfl, rfl, rfl⟩
  intro t1 t2 h1 h2 h3
  cases t1
  cases t2
  simp_all

/-- Witness for C8: a concrete store round-trips through the snapshot,
and the exactly-three-fields property instantiates at concrete
snapshots. -/
theorem to_tokens_exact_and_roundtrip_witness :
    ({ access_token := "x", refresh_token := "y", expires_at := 5 } :
        AuthTokens) =
      { access_token := "x", refresh_token := "y", expires_at := 5 } ∧
    ((({ client_id := "id", client_secret := "sec", redirect_url := "uri",
         app_token := "app", access_token := "AT", refresh_token := "RT",
         expires_at := 77, scopes := ["animelist"] } : Auth).to_tokens).into_auth
        "id2" "sec2" "app2" "uri2").access_token = "AT" := by
  have h := to_tokens_exact_and_roundtrip
    { client_id := "id", client_secret := "sec", redirect_url := "uri",
      app_token := "app", access_token := "AT", refresh_token := "RT",
      expires_at := 77, scopes := ["animelist"] } "id2" "sec2" "app2" "uri2"
  exact ⟨h.1 _ _ rfl rfl rfl, h.2.1.trans rfl⟩

/-- Claim C9: revocation is a no-op success when the corresponding token
is absent (the endpoint is not contacted, recorded by the boolean), and
a failing revocation call surfaces as `Revoke` in both variants. -/
theorem revoke_paths (s : Token) (a : Auth) (e : String) :
    (s.access_token = none →
      ∀ net, Token.revoke_token s net = (false, Except.ok ())) ∧
    (s.refresh_token = none →
      ∀ net, Token.revoke_refresh_token s net = (false, Except.ok ())) ∧
    (s.access_token.isSome = true →
      Token.revoke_token s (Except.error e) =
        (true, Except.error (TokenError.Revoke e))) ∧
    (s.refresh_token.isSome = true →
      Token.revoke_refresh_token s (Except.error e) =
        (true, Except.error (TokenError.Revoke e))) ∧
    Auth.revoke_token a (Except.error e) =
      (true, Except.error (TokenError.Revoke e)) ∧
    Auth.revoke_refresh_token a (Except.error e) =
      (true, Except.error (TokenError.Revoke e)) := by
  refine ⟨?_, ?_, ?_, ?_, rfl, rfl⟩
  · intro h net
    simp [Token.revoke_token, h]
  · intro h net
    simp [Token.revoke_refresh_token, h]
  · intro h
    cases h2 : s.access_token with
    | none => rw [h2] at h; simp at h
    | some t => simp [Token.revoke_token, h2]
  · intro h
    cases h2 : s.refresh_token with
    | none => rw [h2] at h; simp at h
    | some t => simp [Token.revoke_refresh_token, h2]

/-- Witness for C9: the fresh store revokes as a no-op without endpoint
contact, and a populated store surfaces a failing call as `Revoke`. -/
theorem revoke_paths_witness :
    Token.revoke_token (Token.new "id" "sec" "app" "uri")
        (Except.error "down") = (false, Except.ok ()) ∧
    Token.revoke_refresh_token (Token.new "id" "sec" "app" "uri")
        (Except.error "down") = (false, Except.ok ()) ∧
    Token.revoke_token
        { client_id := "id", client_secret := "sec", redirect_url := "uri",
          app_token := "app", access_token := some "abc",
          refresh_token := some "def", expires_at := some 10, scopes := [] }
        (Except.error "down") =
      (true, Except.error (TokenError.Revoke "down")) := by
  have h1 := revoke_paths (Token.new "id" "sec" "app" "uri")
    (Auth.new "id" "sec" "app" "uri") "down"
  have h2 := revoke_paths
    { client_id := "id", client_secret := "sec", redirect_url := "uri",
      app_token := "app", access_token := some "abc",
      refresh_token := some "def", expires_at := some 10, scopes := [] }
    (Auth.new "id" "sec" "app" "uri") "down"
  exact ⟨h1.1 rfl (Except.error "down"), h1.2.1 rfl (Except.error "down"),
    h2.2.2.1 rfl⟩

/-- Counterexample to C1 as stated: in the `Auth` variant
(src/auth.rs), a store whose refresh token is expired is left completely
untouched by `try_refresh`, which returns Ok without performing any
repair — `Auth::try_refresh` contains no call to `regenerate` at all, so
the claimed escalation is skipped. -/
theorem auth_try_refresh_never_escalates_cx :
    Auth.is_refresh_valid
        { client_id := "id", client_secret := "sec", redirect_url := "uri",
          app_token := "app", access_token := "abc", refresh_token := "def",
          expires_at := 0, scopes := [] } 5 = false ∧
    Auth.try_refresh
        { client_id := "id", client_secret := "sec", redirect_url := "uri",
          app_token := "app", access_token := "abc", refresh_token := "def",
          expires_at := 0, scopes := [] } 5 (Except.error "down") =
      some ({ client_id := "id", client_secret := "sec",
              redirect_url := "uri", app_token := "app",
              access_token := "abc", refresh_token := "def",
              expires_at := 0, scopes := [] }, Except.ok ()) :=
  ⟨rfl, rfl⟩

/-- Claim C1 (amended): only the `Token` variant (src/lib.rs) escalates.
A `Token` store that is already valid is left untouched (no refresh, no
regenerate, result Ok).  For every invalid `Token` store, `try_refresh`
actively repairs: it attempts the refresh-token exchange exactly when a
refresh token is stored and the recorded expiry (if any) has passed,
escalating to `regenerate` when that exchange fails; in every other
invalid state it calls `regenerate` directly.  The `Auth` variant
(src/auth.rs) performs `refresh` only while the refresh token is
unexpired and never escalates: with an expired refresh token it returns
Ok leaving the store untouched. -/
theorem try_refresh_escalation (s : Token) (a : Auth) (now : Nat)
    (net : Except String TokenResponse) (genState : String)
    (cb : Except String (String × String)) (exch : Except String TokenResponse) :
    (Token.is_valid s now = true →
      Token.try_refresh s now net genState cb exch =
        ⟨s, Except.ok (), false, false⟩) ∧
    (Token.is_valid s now = false →
      (refreshAttempted s now = false →
        Token.try_refresh s now net genState cb exch =
          ⟨(Token.regenerate s now genState cb exch).1,
           (Token.regenerate s now genState cb exch).2, false, true⟩) ∧
      (refreshAttempted s now = true →
        (∀ e, net = Except.error e →
          Token.try_refresh s now net genState cb exch =
            ⟨(Token.regenerate s now genState cb exch).1,
             (Token.regenerate s now genState cb exch).2, true, true⟩) ∧
        (∀ tok, net = Except.ok tok →
          Token.try_refresh s now net genState cb exch =
            ⟨(Token.refresh s now net).1, Except.ok (), true, false⟩))) ∧
    (Auth.is_refresh_valid a now = false →
      Auth.try_refresh a now net = some (a, Except.ok ())) := by
  refine ⟨?_, fun hinv => ⟨?_, ?_⟩, ?_⟩
  · intro hval
    cases s with
    | mk ci cs ru ap at_ rt ea sc =>
        cases ea with
        | none => simp [Token.is_valid] at hval
        | some t =>
            cases rt with
            | none => simp [Token.is_valid] at hval
            | some r0 =>
                cases at_ with
                | none => simp [Token.is_valid] at hval
                | some a0 =>
                    simp [Token.is_valid] at hval
                    simp [Token.try_refresh, hval]
  · intro hra
    cases s with
    | mk ci cs ru ap at_ rt ea sc =>
        cases ea with
        | none =>
            cases rt with
            | none => simp [Token.try_refresh]
            | some r0 => simp [refreshAttempted] at hra
        | some t =>
            cases rt with
            | none => simp [Token.try_refresh]
            | some r0 =>
                simp [refreshAttempted] at hra
                cases at_ with
                | some a0 =>
                    simp [Token.is_valid] at hinv
                    omega
                | none => simp [Token.try_refresh, hra]
  · intro hra
    constructor
    · intro e hne
      subst hne
      cases s with
      | mk ci cs ru ap at_ rt ea sc =>
          cases rt with
          | none => simp [refreshAttempted] at hra
          | some r0 =>
              cases ea with
              | none => simp [Token.try_refresh, Token.refresh]
              | some t =>
                  simp [refreshAttempted] at hra
                  simp [Token.try_refresh, Token.refresh, hra]
    · intro tok hok
      subst hok
      cases s with
      | mk ci cs ru ap at_ rt ea sc =>
          cases rt with
          | none => simp [refreshAttempted] at hra
          | some r0 =>
              cases ea with
              | none => simp [Token.try_refresh, Token.refresh]
              | some t =>
                  simp [refreshAttempted] at hra
                  simp [Token.try_refresh, Token.refresh, hra]
  · intro h
    simp [Auth.try_refresh, h]

/-- Witness for C1 (amended): the fresh empty `Token` store (no refresh
token) goes straight to `regenerate`, which with a matching CSRF state
and a successful exchange repairs the store; a valid store is left
untouched as a no-op. -/
theorem try_refresh_escalation_witness :
    Token.try_refresh (Token.new "id" "sec" "app" "uri") 5
        (Except.error "down") "g" (Except.ok ("code", "g"))
        (Except.ok { access_token := "A", refresh_token := some "R",
                     expires_in := some 3600 }) =
      ⟨{ client_id := "id", client_secret := "sec", redirect_url := "uri",
         app_token := "app", access_token := some "A",
         refresh_token := some "R", expires_at := some 3605, scopes := [] },
       Except.ok (), false, true⟩ ∧
    Token.try_refresh
        { client_id := "id", client_secret := "sec", redirect_url := "uri",
          app_token := "app", access_token := some "abc",
          refresh_token := some "def", expires_at := some 100, scopes := [] }
        5 (Except.error "down") "g" (Except.ok ("code", "g"))
        (Except.ok { access_token := "A", refresh_token := some "R",
                     expires_in := some 3600 }) =
      ⟨{ client_id := "id", client_secret := "sec", redirect_url := "uri",
         app_token := "app", access_token := some "abc",
         refresh_token := some "def", expires_at := some 100, scopes := [] },
       Except.ok (), false, false⟩ := by
  have h1 := ((try_refresh_escalation (Token.new "id" "sec" "app" "uri")
    (Auth.new "id" "sec" "app" "uri") 5 (Except.error "down") "g"
    (Except.ok ("code", "g"))
    (Except.ok { access_token := "A", refresh_token := some "R",
                 expires_in := some 3600 })).2.1 rfl).1 rfl
  have h2 := (try_refresh_escalation
    { client_id := "id", client_secret := "sec", redirect_url := "uri",
      app_token := "app", access_token := some "abc",
      refresh_token := some "def", expires_at := some 100, scopes := [] }
    (Auth.new "id" "sec" "app" "uri") 5 (Except.error "down") "g"
    (Except.ok ("code", "g"))
    (Except.ok { access_token := "A", refresh_token := some "R",
                 expires_in := some 3600 })).1 rfl
  exact ⟨h1.trans rfl, h2⟩

end AnimeSchedule
